import Mathlib

/-!
Shallow embedding of `src/config.py` from the ASDTS repository.

The module reads environment variables (after `load_dotenv()`), builds four
grouped dataclasses (`FirebaseConfig`, `TradingConfig`, `SentimentConfig`,
`LoggingConfig`), assembles them into `ASDTSConfig`, and runs a validation
pass.  The environment is modelled as a partial map from variable names to
string values; the filesystem existence check `os.path.exists` is modelled as
a boolean predicate on paths.  A value produced by Python `float()` is
modelled by `PyNum`: nan, a signed infinity, or a finite value kept exactly
as the mantissa/power-of-ten pair of its decimal source literal.  The only
observation the module makes of a float is the comparison `x <= 0` in
`_validate_config`; it is modelled by `pyLeZero`, which accounts exactly for
IEEE binary64 round-to-nearest-even of the written value, underflow to zero
included.  The parsers follow CPython's pipeline for `float(str)`/`int(str)`:
Unicode decimal digits and Python whitespace are first transformed to ASCII,
underscores are accepted between digits, and inf/infinity/nan are recognized
case-insensitively with an optional sign.  Fallible construction returns
`Except`; the warning that `_validate_config` may log is returned alongside
the result.
-/

set_option maxRecDepth 8192

deriving instance DecidableEq for Except

namespace ASDTS

/-- The process environment as seen by `os.getenv`: a variable is either
unset (`none`) or bound to a string, possibly the empty string. -/
abbrev Env := String → Option String

/-- Model of `os.getenv(name, dflt)`: the bound value when the variable is
set (even when set to the empty string), otherwise the default. -/
def getenv (env : Env) (name dflt : String) : String :=
  (env name).getD dflt

/-- Rebind one environment variable. -/
def setVar (env : Env) (k v : String) : Env :=
  fun n => if n = k then some v else env n

/-- Build an environment from an association list; unlisted variables are
unset. -/
def envOf (l : List (String × String)) : Env :=
  fun n => (l.find? (fun p => p.1 == n)).map Prod.snd

/-- ASCII lowercasing of one character, as Python `str.lower()` acts on the
ASCII range (environment values in this module are ASCII). -/
def pyLowerChar (c : Char) : Char :=
  if c.toNat ≥ 65 && c.toNat ≤ 90 then Char.ofNat (c.toNat + 32) else c

/-- Model of Python `str.lower()` on ASCII strings. -/
def pyLower (s : String) : String :=
  ⟨s.data.map pyLowerChar⟩

/-- Numeric value of a list of decimal digits, most significant first. -/
def natOfDigits (cs : List Char) : Nat :=
  cs.foldl (fun n c => 10 * n + (c.toNat - 48)) 0

/-- Consume one optional leading sign; returns (isNegative, rest). -/
def parseSign : List Char → Bool × List Char
  | '+' :: cs => (false, cs)
  | '-' :: cs => (true, cs)
  | cs => (false, cs)

/-- All characters are decimal digits. -/
def allDigits (cs : List Char) : Bool :=
  cs.all Char.isDigit

/-- Exponent written after the letter e: optional sign then at least one
digit. -/
def parseExpPart (cs : List Char) : Option Int :=
  let (neg, ds) := parseSign cs
  if !ds.isEmpty && allDigits ds then
    some (if neg then -(natOfDigits ds : Int) else (natOfDigits ds : Int))
  else none

/-- Unsigned decimal mantissa with optional fraction and optional exponent
(`digits`, `digits.digits`, `.digits`, `digits.`, optionally followed by
`e`/`E` and a signed exponent), returned exactly as value-times-ten-to-the:
(mantissa, power of ten). -/
def parseMantExp (cs : List Char) : Option (Int × Int) :=
  let ip := cs.takeWhile Char.isDigit
  let r1 := cs.dropWhile Char.isDigit
  match r1 with
  | [] => if ip.isEmpty then none else some ((natOfDigits ip : Int), 0)
  | '.' :: r2 =>
    let fp := r2.takeWhile Char.isDigit
    let r3 := r2.dropWhile Char.isDigit
    if ip.isEmpty && fp.isEmpty then none
    else
      let m : Int := (natOfDigits (ip ++ fp) : Int)
      let e0 : Int := -(fp.length : Int)
      match r3 with
      | [] => some (m, e0)
      | c :: r4 =>
        if c == 'e' || c == 'E' then (parseExpPart r4).map (fun e => (m, e0 + e))
        else none
  | c :: r4 =>
    if (c == 'e' || c == 'E') && !ip.isEmpty then
      (parseExpPart r4).map (fun e => ((natOfDigits ip : Int), e))
    else none

/-- Zero code points of the runs of ten decimal digits of Unicode category
Nd (Unicode 15.0), as used by CPython's transform of decimal digits to
ASCII before numeric parsing. -/
def ndBases : List Nat :=
  [0x30, 0x660, 0x6F0, 0x7C0, 0x966, 0x9E6, 0xA66, 0xAE6, 0xB66, 0xBE6,
   0xC66, 0xCE6, 0xD66, 0xDE6, 0xE50, 0xED0, 0xF20, 0x1040, 0x1090, 0x17E0,
   0x1810, 0x1946, 0x19D0, 0x1A80, 0x1A90, 0x1B50, 0x1BB0, 0x1C40, 0x1C50,
   0xA620, 0xA8D0, 0xA900, 0xA9D0, 0xA9F0, 0xAA50, 0xABF0, 0xFF10, 0x104A0,
   0x10D30, 0x11066, 0x110F0, 0x11136, 0x111D0, 0x112F0, 0x11450, 0x114D0,
   0x11650, 0x116C0, 0x11730, 0x118E0, 0x11950, 0x11C50, 0x11D50, 0x11DA0,
   0x11F50, 0x16A60, 0x16AC0, 0x16B50, 0x1D7CE, 0x1D7D8, 0x1D7E2, 0x1D7EC,
   0x1D7F6, 0x1E140, 0x1E2F0, 0x1E4F0, 0x1E950, 0x1FBF0]

/-- The decimal value of a Unicode Nd digit, `none` for any other
character. -/
def decDigitVal (c : Char) : Option Nat :=
  (ndBases.find? (fun b => b ≤ c.toNat && c.toNat ≤ b + 9)).map
    (fun b => c.toNat - b)

/-- The code points CPython's `Py_UNICODE_ISSPACE` treats as whitespace in
numeric string conversion. -/
def pySpaceCodes : List Nat :=
  [0x9, 0xA, 0xB, 0xC, 0xD, 0x1C, 0x1D, 0x1E, 0x1F, 0x20, 0x85, 0xA0,
   0x1680, 0x2000, 0x2001, 0x2002, 0x2003, 0x2004, 0x2005, 0x2006, 0x2007,
   0x2008, 0x2009, 0x200A, 0x2028, 0x2029, 0x202F, 0x205F, 0x3000]

/-- Python whitespace test for numeric conversion. -/
def pySpace (c : Char) : Bool :=
  pySpaceCodes.contains c.toNat

/-- CPython's transform applied to the string before numeric parsing: every
Unicode decimal digit becomes its ASCII digit and every Python whitespace
character becomes an ASCII space; all other characters pass through. -/
def pyTransform (c : Char) : Char :=
  match decDigitVal c with
  | some d => Char.ofNat (48 + d)
  | none => if pySpace c then ' ' else c

/-- Strip leading and trailing ASCII spaces (the transform has already
mapped every Python whitespace character to an ASCII space). -/
def pyStrip (cs : List Char) : List Char :=
  ((cs.dropWhile (fun c => c == ' ')).reverse.dropWhile (fun c => c == ' ')).reverse

/-- Validate and remove the underscores of a numeric literal with CPython's
rule: every underscore must sit between two digits.  The state records what
the scanner just saw: 0 = not a digit, 1 = a digit, 2 = an underscore (a
digit is now mandatory). -/
def remUndAux : Nat → List Char → Option (List Char)
  | st, [] => if st == 2 then none else some []
  | st, c :: rest =>
    if c == '_' then
      if st == 1 then remUndAux 2 rest else none
    else if c.isDigit then
      (remUndAux 1 rest).map (fun l => c :: l)
    else
      if st == 2 then none else (remUndAux 0 rest).map (fun l => c :: l)

/-- Underscore validation and removal over a whole stripped literal. -/
def remUnderscores (cs : List Char) : Option (List Char) :=
  remUndAux 0 cs

/-- The message of the `ValueError` raised by Python `float(s)` on a string
it cannot parse. -/
def floatErrMsg (s : String) : String :=
  "could not convert string to float: \x27" ++ s ++ "\x27"

/-- The message of the `ValueError` raised by Python `int(s)` on a string it
cannot parse. -/
def intErrMsg (s : String) : String :=
  "invalid literal for int() with base 10: \x27" ++ s ++ "\x27"

/-- The exact value of a finite decimal literal: mantissa times a power of
ten, exactly as written. -/
structure PyFloat where
  mant : Int
  exp : Int
  deriving DecidableEq

/-- A Python `float()` result: nan, a signed infinity (`true` = negative),
or a finite written value.  A finite value is kept as the exact decimal pair
rather than its binary64 rounding; the one observation the configuration
module makes of a float — the comparison `x <= 0` — is taken through
`pyLeZero`, which applies the rounding exactly (an overflowing literal such
as "1e400" rounds to +infinity in Python, and both it and its exact value
compare strictly positive, so the observation agrees there too). -/
inductive PyNum where
  | fin : PyFloat → PyNum
  | inf : Bool → PyNum
  | nan : PyNum
  deriving DecidableEq

/-- For a positive mantissa, does the written value m·10^e lie at or below
2^(-1075), the halfway point between zero and the smallest positive binary64
subnormal 2^(-1074)?  At or below that point (ties round to even, and zero
has the even significand) the value rounds to +0.0; strictly above it the
value rounds to a positive double.  For e ≥ 0 the value is at least 1, so
the answer is no; for e = -(k+1) the inequality m·10^(-(k+1)) ≤ 2^(-1075)
is exactly m·2^1075 ≤ 10^(k+1). -/
def subHalfULP (m : Int) : Int → Bool
  | Int.ofNat _ => false
  | Int.negSucc k => decide (m * ((2 ^ 1075 : Nat) : Int) ≤ ((10 ^ (k + 1) : Nat) : Int))

/-- Model of the Python comparison `x <= 0` on the binary64 float that
`float()` returns: nan compares false; infinities compare by sign; a finite
written value m·10^e rounds to a nonpositive double exactly when m ≤ 0
(negative values round to nonpositive doubles, down to -infinity) or the
positive value underflows to +0.0 (`subHalfULP`). -/
def pyLeZero : PyNum → Bool
  | PyNum.nan => false
  | PyNum.inf neg => neg
  | PyNum.fin x => decide (x.mant ≤ 0) || subHalfULP x.mant x.exp

/-- Model of Python `float(s)`: transform Unicode digits and whitespace to
ASCII, strip, validate and drop underscores, then an optional sign followed
by inf/infinity/nan (case-insensitive) or a decimal mantissa with optional
exponent; any other string is a parse failure carrying the `ValueError`
message Python produces. -/
def pyFloat (s : String) : Except String PyNum :=
  match remUnderscores (pyStrip (s.data.map pyTransform)) with
  | none => Except.error (floatErrMsg s)
  | some cs =>
    match parseSign cs with
    | (neg, cs1) =>
      if cs1.map pyLowerChar == "inf".data || cs1.map pyLowerChar == "infinity".data then
        Except.ok (PyNum.inf neg)
      else if cs1.map pyLowerChar == "nan".data then
        Except.ok PyNum.nan
      else
        match parseMantExp cs1 with
        | some (m, e) => Except.ok (PyNum.fin ⟨if neg then -m else m, e⟩)
        | none => Except.error (floatErrMsg s)

/-- Model of Python `int(s)` in base 10: transform Unicode digits and
whitespace to ASCII, strip, validate and drop underscores, then an optional
sign and at least one decimal digit; any other string is a parse failure
carrying the `ValueError` message Python produces. -/
def pyInt (s : String) : Except String Int :=
  match remUnderscores (pyStrip (s.data.map pyTransform)) with
  | none => Except.error (intErrMsg s)
  | some cs =>
    match parseSign cs with
    | (neg, cs1) =>
      if !cs1.isEmpty && allDigits cs1 then
        Except.ok (if neg then -(natOfDigits cs1 : Int) else (natOfDigits cs1 : Int))
      else Except.error (intErrMsg s)

/-- `FirebaseConfig` dataclass: credential path, project id, and the
collection-name mapping (an insertion-ordered dict, modelled as an
association list). -/
structure FirebaseConfig where
  credential_path : String
  project_id : String
  collections : List (String × String)
  deriving DecidableEq

/-- The five-entry collections dict installed by
`FirebaseConfig.__post_init__` when no mapping was passed (the constructor in
`ASDTSConfig.__init__` never passes one). -/
def defaultCollections : List (String × String) :=
  [("trades", "trades"),
   ("sentiment", "sentiment_data"),
   ("strategies", "trading_strategies"),
   ("system_logs", "system_logs"),
   ("market_data", "market_data")]

/-- `FirebaseConfig()` as evaluated against the environment. -/
def mkFirebaseConfig (env : Env) : FirebaseConfig :=
  { credential_path := getenv env "FIREBASE_CREDENTIAL_PATH" "firebase-credentials.json"
    project_id := getenv env "FIREBASE_PROJECT_ID" "asdts-system"
    collections := defaultCollections }

/-- `TradingConfig` dataclass. -/
structure TradingConfig where
  exchange : String
  testnet : Bool
  default_symbol : String
  max_position_size : PyNum
  stop_loss_pct : PyNum
  take_profit_pct : PyNum
  sentiment_threshold : PyNum
  deriving DecidableEq

/-- `TradingConfig()` as evaluated against the environment: the four float
fields are parsed in declaration order and the first parse failure aborts
with its error. -/
def mkTradingConfig (env : Env) : Except String TradingConfig :=
  match pyFloat (getenv env "MAX_POSITION_SIZE" "0.1"),
        pyFloat (getenv env "STOP_LOSS_PCT" "0.02"),
        pyFloat (getenv env "TAKE_PROFIT_PCT" "0.03"),
        pyFloat (getenv env "SENTIMENT_THRESHOLD" "0.3") with
  | Except.ok mps, Except.ok slp, Except.ok tpp, Except.ok st =>
    Except.ok
      { exchange := getenv env "TRADING_EXCHANGE" "binance"
        testnet := pyLower (getenv env "TRADING_TESTNET" "True") == "true"
        default_symbol := getenv env "DEFAULT_SYMBOL" "BTC/USDT"
        max_position_size := mps
        stop_loss_pct := slp
        take_profit_pct := tpp
        sentiment_threshold := st }
  | Except.error e, _, _, _ => Except.error e
  | Except.ok _, Except.error e, _, _ => Except.error e
  | Except.ok _, Except.ok _, Except.error e, _ => Except.error e
  | Except.ok _, Except.ok _, Except.ok _, Except.error e => Except.error e

/-- `SentimentConfig` dataclass. -/
structure SentimentConfig where
  sources : List String
  update_interval : Int
  vader_threshold : PyNum
  deriving DecidableEq

/-- `SentimentConfig()` as evaluated against the environment; `sources` is
always installed by `__post_init__` since the constructor passes none. -/
def mkSentimentConfig (env : Env) : Except String SentimentConfig :=
  match pyInt (getenv env "SENTIMENT_UPDATE_INTERVAL" "300"),
        pyFloat (getenv env "VADER_THRESHOLD" "0.05") with
  | Except.ok ui, Except.ok vt =>
    Except.ok { sources := ["news", "twitter", "reddit"], update_interval := ui, vader_threshold := vt }
  | Except.error e, _ => Except.error e
  | Except.ok _, Except.error e => Except.error e

/-- `LoggingConfig` dataclass. -/
structure LoggingConfig where
  level : String
  file_path : String
  max_size_mb : Int
  backup_count : Int
  deriving DecidableEq

/-- `LoggingConfig()` as evaluated against the environment. -/
def mkLoggingConfig (env : Env) : Except String LoggingConfig :=
  match pyInt (getenv env "LOG_MAX_SIZE_MB" "10"),
        pyInt (getenv env "LOG_BACKUP_COUNT" "5") with
  | Except.ok ms, Except.ok bc =>
    Except.ok
      { level := getenv env "LOG_LEVEL" "INFO"
        file_path := getenv env "LOG_FILE" "asdts.log"
        max_size_mb := ms
        backup_count := bc }
  | Except.error e, _ => Except.error e
  | Except.ok _, Except.error e => Except.error e

/-- `ASDTSConfig`: the aggregate settings object. -/
structure ASDTSConfig where
  firebase : FirebaseConfig
  trading : TradingConfig
  sentiment : SentimentConfig
  logging : LoggingConfig
  deriving DecidableEq

/-- The warning half of `_validate_config`: the `logging.warning` line
emitted when `os.path.exists` is false on the credential path. -/
def validateWarnings (fsExists : String → Bool) (c : ASDTSConfig) : List String :=
  if fsExists c.firebase.credential_path then []
  else ["Firebase credential file not found: " ++ c.firebase.credential_path]

/-- The fatal half of `_validate_config`: max position size is checked
before the stop-loss fraction, each comparison `x <= 0` taken on the parsed
float through `pyLeZero`, and each failure raises a `ValueError` whose
message is the literal from the source. -/
def validateCheck (c : ASDTSConfig) : Except String Unit :=
  if pyLeZero c.trading.max_position_size then
    Except.error "MAX_POSITION_SIZE must be positive"
  else if pyLeZero c.trading.stop_loss_pct then
    Except.error "STOP_LOSS_PCT must be positive"
  else Except.ok ()

/-- `ASDTSConfig()` end to end: build the four groups (a parse failure in an
earlier group aborts before later work, matching Python evaluation order),
then run `_validate_config`, returning the warnings that were logged
alongside the outcome. -/
def mkASDTSConfig (env : Env) (fsExists : String → Bool) :
    List String × Except String ASDTSConfig :=
  match mkTradingConfig env, mkSentimentConfig env, mkLoggingConfig env with
  | Except.ok t, Except.ok s, Except.ok l =>
    let c : ASDTSConfig := ⟨mkFirebaseConfig env, t, s, l⟩
    (validateWarnings fsExists c, (validateCheck c).map (fun _ => c))
  | Except.error e, _, _ => ([], Except.error e)
  | Except.ok _, Except.error e, _ => ([], Except.error e)
  | Except.ok _, Except.ok _, Except.error e => ([], Except.error e)

/-- Boolean list-prefix test. -/
def isPrefixOfB : List Char → List Char → Bool
  | [], _ => true
  | _ :: _, [] => false
  | a :: as, b :: bs => a == b && isPrefixOfB as bs

/-- Boolean contiguous-sublist test: does `p` occur inside the second
list? -/
def containsSub (p : List Char) : List Char → Bool
  | [] => isPrefixOfB p []
  | c :: t => isPrefixOfB p (c :: t) || containsSub p t

/-- Does the string `pat` occur as a substring of `hay`?  Used to state that
an error message names (or fails to name) a variable or value. -/
def strContains (hay pat : String) : Bool :=
  containsSub pat.data hay.data

/-- Inversion: a successfully built `TradingConfig` records exactly the
parses of its seven environment variables. -/
lemma mkTradingConfig_ok {env : Env} {t : TradingConfig}
    (h : mkTradingConfig env = Except.ok t) :
    pyFloat (getenv env "MAX_POSITION_SIZE" "0.1") = Except.ok t.max_position_size ∧
    pyFloat (getenv env "STOP_LOSS_PCT" "0.02") = Except.ok t.stop_loss_pct ∧
    pyFloat (getenv env "TAKE_PROFIT_PCT" "0.03") = Except.ok t.take_profit_pct ∧
    pyFloat (getenv env "SENTIMENT_THRESHOLD" "0.3") = Except.ok t.sentiment_threshold ∧
    t.exchange = getenv env "TRADING_EXCHANGE" "binance" ∧
    t.testnet = (pyLower (getenv env "TRADING_TESTNET" "True") == "true") ∧
    t.default_symbol = getenv env "DEFAULT_SYMBOL" "BTC/USDT" := by
  cases h1 : pyFloat (getenv env "MAX_POSITION_SIZE" "0.1") <;>
    cases h2 : pyFloat (getenv env "STOP_LOSS_PCT" "0.02") <;>
    cases h3 : pyFloat (getenv env "TAKE_PROFIT_PCT" "0.03") <;>
    cases h4 : pyFloat (getenv env "SENTIMENT_THRESHOLD" "0.3") <;>
    simp [mkTradingConfig, h1, h2, h3, h4] at h
  subst h
  exact ⟨rfl, rfl, rfl, rfl, rfl, rfl, rfl⟩

/-- Inversion for `SentimentConfig`. -/
lemma mkSentimentConfig_ok {env : Env} {s : SentimentConfig}
    (h : mkSentimentConfig env = Except.ok s) :
    pyInt (getenv env "SENTIMENT_UPDATE_INTERVAL" "300") = Except.ok s.update_interval ∧
    pyFloat (getenv env "VADER_THRESHOLD" "0.05") = Except.ok s.vader_threshold ∧
    s.sources = ["news", "twitter", "reddit"] := by
  cases h1 : pyInt (getenv env "SENTIMENT_UPDATE_INTERVAL" "300") <;>
    cases h2 : pyFloat (getenv env "VADER_THRESHOLD" "0.05") <;>
    simp [mkSentimentConfig, h1, h2] at h
  subst h
  exact ⟨rfl, rfl, rfl⟩

/-- Inversion for `LoggingConfig`. -/
lemma mkLoggingConfig_ok {env : Env} {l : LoggingConfig}
    (h : mkLoggingConfig env = Except.ok l) :
    pyInt (getenv env "LOG_MAX_SIZE_MB" "10") = Except.ok l.max_size_mb ∧
    pyInt (getenv env "LOG_BACKUP_COUNT" "5") = Except.ok l.backup_count ∧
    l.level = getenv env "LOG_LEVEL" "INFO" ∧
    l.file_path = getenv env "LOG_FILE" "asdts.log" := by
  cases h1 : pyInt (getenv env "LOG_MAX_SIZE_MB" "10") <;>
    cases h2 : pyInt (getenv env "LOG_BACKUP_COUNT" "5") <;>
    simp [mkLoggingConfig, h1, h2] at h
  subst h
  exact ⟨rfl, rfl, rfl, rfl⟩

/-- Forward evaluation of the aggregate constructor once the three fallible
groups are known to build. -/
lemma mkASDTSConfig_groups (env : Env) (fs : String → Bool)
    {t : TradingConfig} {s : SentimentConfig} {l : LoggingConfig}
    (ht : mkTradingConfig env = Except.ok t)
    (hs : mkSentimentConfig env = Except.ok s)
    (hl : mkLoggingConfig env = Except.ok l) :
    mkASDTSConfig env fs =
      (validateWarnings fs ⟨mkFirebaseConfig env, t, s, l⟩,
       (validateCheck ⟨mkFirebaseConfig env, t, s, l⟩).map
         (fun _ => (⟨mkFirebaseConfig env, t, s, l⟩ : ASDTSConfig))) := by
  simp [mkASDTSConfig, ht, hs, hl]

/-- Inversion: a successful aggregate construction is exactly the four
groups, and validation passed. -/
lemma mkASDTSConfig_ok {env : Env} {fs : String → Bool} {c : ASDTSConfig}
    (h : (mkASDTSConfig env fs).2 = Except.ok c) :
    mkTradingConfig env = Except.ok c.trading ∧
    mkSentimentConfig env = Except.ok c.sentiment ∧
    mkLoggingConfig env = Except.ok c.logging ∧
    c.firebase = mkFirebaseConfig env := by
  cases ht : mkTradingConfig env <;>
    cases hs : mkSentimentConfig env <;>
    cases hl : mkLoggingConfig env <;>
    simp [mkASDTSConfig, ht, hs, hl] at h
  cases hv : validateCheck ⟨mkFirebaseConfig env, _, _, _⟩ <;> rw [hv] at h
  · exact absurd h (by simp [Except.map])
  · simp [Except.map] at h
    subst h
    exact ⟨rfl, rfl, rfl, rfl⟩

/-- Project the error message out of a construction outcome. -/
def errorOf : Except String ASDTSConfig → Option String
  | Except.error e => some e
  | Except.ok _ => none

/-- Project the exchange field out of a successful construction outcome. -/
def exchangeOf : Except String ASDTSConfig → Option String
  | Except.ok c => some c.trading.exchange
  | Except.error _ => none

/-- Project the testnet flag out of a successful construction outcome. -/
def testnetOf : Except String ASDTSConfig → Option Bool
  | Except.ok c => some c.trading.testnet
  | Except.error _ => none

/-- A filesystem on which every path exists. -/
def fsTrue : String → Bool := fun _ => true

/-- A filesystem on which no path exists. -/
def fsFalse : String → Bool := fun _ => false

/-- Reading a variable other than the rebound one is unaffected. -/
lemma getenv_setVar_ne (env : Env) (k v n d : String) (h : n ≠ k) :
    getenv (setVar env k v) n d = getenv env n d := by
  simp [getenv, setVar, h]

/-- A Python value as it appears in the dictionary returned by `to_dict`
(dicts keep insertion order, hence association lists). -/
inductive PyValue where
  | pstr : String → PyValue
  | pbool : Bool → PyValue
  | pint : Int → PyValue
  | plist : List PyValue → PyValue
  | pdict : List (String × PyValue) → PyValue

/-- `ASDTSConfig.to_dict`: the nested logging snapshot, copied key for key
from the source. -/
def to_dict (c : ASDTSConfig) : PyValue :=
  PyValue.pdict
    [("firebase", PyValue.pdict
       [("project_id", PyValue.pstr c.firebase.project_id),
        ("collections", PyValue.pdict
          (c.firebase.collections.map (fun p => (p.1, PyValue.pstr p.2))))]),
     ("trading", PyValue.pdict
       [("exchange", PyValue.pstr c.trading.exchange),
        ("testnet", PyValue.pbool c.trading.testnet),
        ("default_symbol", PyValue.pstr c.trading.default_symbol)]),
     ("sentiment", PyValue.pdict
       [("sources", PyValue.plist (c.sentiment.sources.map PyValue.pstr)),
        ("update_interval", PyValue.pint c.sentiment.update_interval)])]

/-- The keys of a dict value, in order; empty for non-dicts. -/
def topKeys : PyValue → List String
  | PyValue.pdict l => l.map Prod.fst
  | _ => []

/-- The keys of the dict stored under key `k` of a dict value. -/
def subKeys (v : PyValue) (k : String) : List String :=
  match v with
  | PyValue.pdict l =>
    match (l.find? (fun p => p.1 == k)).map Prod.snd with
    | some (PyValue.pdict m) => m.map Prod.fst
    | _ => []
  | _ => []

/-- Overwrite the stop-loss fraction, take-profit fraction and the two
threshold fields of a settings object, leaving everything else intact. -/
def setRiskFields (c : ASDTSConfig) (sl tp st vt : PyNum) : ASDTSConfig :=
  { c with
    trading := { c.trading with stop_loss_pct := sl, take_profit_pct := tp,
                                sentiment_threshold := st }
    sentiment := { c.sentiment with vader_threshold := vt } }

/-- The settings object built from an empty environment: every field is its
compiled-in default (`⟨1, -1⟩` is the exact parse of "0.1", `⟨2, -2⟩` of
"0.02", `⟨3, -2⟩` of "0.03", `⟨3, -1⟩` of "0.3", `⟨5, -2⟩` of "0.05"). -/
def cfgDefault : ASDTSConfig :=
  ⟨⟨"firebase-credentials.json", "asdts-system", defaultCollections⟩,
   ⟨"binance", true, "BTC/USDT", PyNum.fin ⟨1, -1⟩, PyNum.fin ⟨2, -2⟩,
    PyNum.fin ⟨3, -2⟩, PyNum.fin ⟨3, -1⟩⟩,
   ⟨["news", "twitter", "reddit"], 300, PyNum.fin ⟨5, -2⟩⟩,
   ⟨"INFO", "asdts.log", 10, 5⟩⟩

/-- An environment binding all fifteen recognized variables to valid
non-default values. -/
def envAll : Env :=
  envOf
    [("FIREBASE_CREDENTIAL_PATH", "/tmp/creds.json"),
     ("FIREBASE_PROJECT_ID", "proj-x"),
     ("TRADING_EXCHANGE", "kraken"),
     ("TRADING_TESTNET", "TRUE"),
     ("DEFAULT_SYMBOL", "ETH/USDT"),
     ("MAX_POSITION_SIZE", "0.25"),
     ("STOP_LOSS_PCT", "0.05"),
     ("TAKE_PROFIT_PCT", "0.08"),
     ("SENTIMENT_THRESHOLD", "0.4"),
     ("SENTIMENT_UPDATE_INTERVAL", "600"),
     ("VADER_THRESHOLD", "0.1"),
     ("LOG_LEVEL", "DEBUG"),
     ("LOG_FILE", "out.log"),
     ("LOG_MAX_SIZE_MB", "20"),
     ("LOG_BACKUP_COUNT", "3")]

/-- The settings object built from `envAll`. -/
def cfg15 : ASDTSConfig :=
  ⟨⟨"/tmp/creds.json", "proj-x", defaultCollections⟩,
   ⟨"kraken", true, "ETH/USDT", PyNum.fin ⟨25, -2⟩, PyNum.fin ⟨5, -2⟩,
    PyNum.fin ⟨8, -2⟩, PyNum.fin ⟨4, -1⟩⟩,
   ⟨["news", "twitter", "reddit"], 600, PyNum.fin ⟨1, -1⟩⟩,
   ⟨"DEBUG", "out.log", 20, 3⟩⟩

end ASDTS

namespace ASDTS

/-- C5: for every environment, the collection-name mapping of a successfully
constructed settings object is exactly the five fixed entries trades,
sentiment, strategies, system_logs, market_data with their default collection
names; no environment variable can alter it. -/
theorem C5_collections_fixed :
    ∀ (env : Env) (fs : String → Bool) (c : ASDTSConfig),
      (mkASDTSConfig env fs).2 = Except.ok c →
      c.firebase.collections =
        [("trades", "trades"), ("sentiment", "sentiment_data"),
         ("strategies", "trading_strategies"), ("system_logs", "system_logs"),
         ("market_data", "market_data")] := by
  intro env fs c h
  have h4 := (mkASDTSConfig_ok h).2.2.2
  rw [h4]
  rfl

/-- Witness for C5 on a concrete environment that tries to influence the
storage group. -/
theorem C5_collections_fixed_witness :
    cfg15.firebase.collections =
      [("trades", "trades"), ("sentiment", "sentiment_data"),
       ("strategies", "trading_strategies"), ("system_logs", "system_logs"),
       ("market_data", "market_data")] :=
  C5_collections_fixed envAll fsTrue cfg15
    (by decide)

/-- C7: the logging snapshot `to_dict` has exactly the keys firebase
(project_id, collections), trading (exchange, testnet, default_symbol) and
sentiment (sources, update_interval), and its value is unchanged when the
stop-loss fraction, take-profit fraction, sentiment threshold and vader
threshold are overwritten with arbitrary values. -/
theorem C7_to_dict_subset :
    ∀ (c : ASDTSConfig) (sl tp st vt : PyNum),
      topKeys (to_dict c) = ["firebase", "trading", "sentiment"] ∧
      subKeys (to_dict c) "firebase" = ["project_id", "collections"] ∧
      subKeys (to_dict c) "trading" = ["exchange", "testnet", "default_symbol"] ∧
      subKeys (to_dict c) "sentiment" = ["sources", "update_interval"] ∧
      to_dict (setRiskFields c sl tp st vt) = to_dict c := by
  intro c sl tp st vt
  exact ⟨rfl, rfl, rfl, rfl, rfl⟩

/-- C10: construction is a deterministic function of the environment and of
the filesystem existence predicate: two runs over extensionally equal inputs
produce identical outcomes (same warnings, and same error or settings objects
equal in every field of every group). -/
theorem C10_deterministic :
    ∀ (env1 env2 : Env) (fs1 fs2 : String → Bool),
      (∀ n, env1 n = env2 n) → (∀ p, fs1 p = fs2 p) →
      mkASDTSConfig env1 fs1 = mkASDTSConfig env2 fs2 := by
  intro env1 env2 fs1 fs2 he hf
  rw [funext he, funext hf]

/-- Witness for C10: two syntactically different but extensionally equal
environments yield identical construction outcomes. -/
theorem C10_deterministic_witness :
    mkASDTSConfig (envOf [("LOG_LEVEL", "DEBUG")]) fsTrue =
      mkASDTSConfig (setVar (envOf []) "LOG_LEVEL" "DEBUG") fsTrue :=
  C10_deterministic (envOf [("LOG_LEVEL", "DEBUG")])
    (setVar (envOf []) "LOG_LEVEL" "DEBUG") fsTrue fsTrue
    (fun n => by
      by_cases h : n = "LOG_LEVEL"
      · subst h; rfl
      · have hb : ("LOG_LEVEL" == n) = false := beq_eq_false_iff_ne.mpr (Ne.symm h)
        simp [envOf, setVar, List.find?, h, hb])
    (fun _ => rfl)

/-- C1: once all numeric variables parse, construction fails with the
validation `ValueError` naming MAX_POSITION_SIZE whenever the parsed max
position size compares `<= 0` as a Python float (`pyLeZero`, IEEE rounding
included), fails with the one naming STOP_LOSS_PCT whenever the max position
size does not but the parsed stop-loss fraction does, and succeeds (no
validation error) whenever neither compares `<= 0` — in particular whenever
both parsed floats are positive; each validation message names its offending
field. -/
theorem C1_validation_error (env : Env) (fs : String → Bool)
    (t : TradingConfig) (s : SentimentConfig) (l : LoggingConfig)
    (ht : mkTradingConfig env = Except.ok t)
    (hs : mkSentimentConfig env = Except.ok s)
    (hl : mkLoggingConfig env = Except.ok l) :
    (pyLeZero t.max_position_size = true →
      (mkASDTSConfig env fs).2 = Except.error "MAX_POSITION_SIZE must be positive") ∧
    (pyLeZero t.max_position_size = false → pyLeZero t.stop_loss_pct = true →
      (mkASDTSConfig env fs).2 = Except.error "STOP_LOSS_PCT must be positive") ∧
    (pyLeZero t.max_position_size = false → pyLeZero t.stop_loss_pct = false →
      (mkASDTSConfig env fs).2 = Except.ok ⟨mkFirebaseConfig env, t, s, l⟩) ∧
    strContains "MAX_POSITION_SIZE must be positive" "MAX_POSITION_SIZE" = true ∧
    strContains "STOP_LOSS_PCT must be positive" "STOP_LOSS_PCT" = true := by
  rw [mkASDTSConfig_groups env fs ht hs hl]
  refine ⟨?_, ?_, ?_, by decide, by decide⟩
  · intro h1
    simp [validateCheck, h1, Except.map]
  · intro h1 h2
    simp [validateCheck, h1, h2, Except.map]
  · intro h1 h2
    simp [validateCheck, h1, h2, Except.map]

/-- Witness for C1 at MAX_POSITION_SIZE = "-1". -/
theorem C1_validation_error_witness :
    (mkASDTSConfig (envOf [("MAX_POSITION_SIZE", "-1")]) fsTrue).2 =
      Except.error "MAX_POSITION_SIZE must be positive" :=
  (C1_validation_error (envOf [("MAX_POSITION_SIZE", "-1")]) fsTrue
      ⟨"binance", true, "BTC/USDT", PyNum.fin ⟨-1, 0⟩, PyNum.fin ⟨2, -2⟩,
       PyNum.fin ⟨3, -2⟩, PyNum.fin ⟨3, -1⟩⟩
      ⟨["news", "twitter", "reddit"], 300, PyNum.fin ⟨5, -2⟩⟩
      ⟨"INFO", "asdts.log", 10, 5⟩
      (by decide) (by decide) (by decide)).1
    (by decide)

/-- C9: when both the parsed max position size and the parsed stop-loss
fraction compare `<= 0` as Python floats, the error raised is the one naming
MAX_POSITION_SIZE (max position size is checked first). -/
theorem C9_validation_order (env : Env) (fs : String → Bool)
    (t : TradingConfig) (s : SentimentConfig) (l : LoggingConfig)
    (ht : mkTradingConfig env = Except.ok t)
    (hs : mkSentimentConfig env = Except.ok s)
    (hl : mkLoggingConfig env = Except.ok l)
    (h1 : pyLeZero t.max_position_size = true) (h2 : pyLeZero t.stop_loss_pct = true) :
    (mkASDTSConfig env fs).2 = Except.error "MAX_POSITION_SIZE must be positive" := by
  rw [mkASDTSConfig_groups env fs ht hs hl]
  simp [validateCheck, h1, Except.map]

/-- Witness for C9 with both MAX_POSITION_SIZE and STOP_LOSS_PCT negative. -/
theorem C9_validation_order_witness :
    (mkASDTSConfig (envOf [("MAX_POSITION_SIZE", "-2"), ("STOP_LOSS_PCT", "-3")]) fsTrue).2 =
      Except.error "MAX_POSITION_SIZE must be positive" :=
  C9_validation_order
    (envOf [("MAX_POSITION_SIZE", "-2"), ("STOP_LOSS_PCT", "-3")]) fsTrue
    ⟨"binance", true, "BTC/USDT", PyNum.fin ⟨-2, 0⟩, PyNum.fin ⟨-3, 0⟩,
     PyNum.fin ⟨3, -2⟩, PyNum.fin ⟨3, -1⟩⟩
    ⟨["news", "twitter", "reddit"], 300, PyNum.fin ⟨5, -2⟩⟩
    ⟨"INFO", "asdts.log", 10, 5⟩
    (by decide) (by decide) (by decide)
    (by decide) (by decide)

/-- C6: when the credential path does not exist but all numeric variables
parse and both validation invariants hold (neither parsed float compares
`<= 0`), construction succeeds and the missing-file warning is emitted;
moreover the filesystem existence predicate never influences the
success-or-error outcome. -/
theorem C6_missing_credential_warns (env : Env) (fs : String → Bool)
    (t : TradingConfig) (s : SentimentConfig) (l : LoggingConfig)
    (ht : mkTradingConfig env = Except.ok t)
    (hs : mkSentimentConfig env = Except.ok s)
    (hl : mkLoggingConfig env = Except.ok l)
    (h1 : pyLeZero t.max_position_size = false) (h2 : pyLeZero t.stop_loss_pct = false)
    (hf : fs (mkFirebaseConfig env).credential_path = false) :
    mkASDTSConfig env fs =
      (["Firebase credential file not found: " ++ (mkFirebaseConfig env).credential_path],
       Except.ok ⟨mkFirebaseConfig env, t, s, l⟩) ∧
    (∀ fs1 fs2 : String → Bool, (mkASDTSConfig env fs1).2 = (mkASDTSConfig env fs2).2) := by
  constructor
  · rw [mkASDTSConfig_groups env fs ht hs hl]
    simp [validateWarnings, hf, validateCheck, h1, h2, Except.map]
  · intro fs1 fs2
    rw [mkASDTSConfig_groups env fs1 ht hs hl, mkASDTSConfig_groups env fs2 ht hs hl]

/-- Witness for C6 on a filesystem where no path exists. -/
theorem C6_missing_credential_warns_witness :
    mkASDTSConfig (envOf []) fsFalse =
      (["Firebase credential file not found: " ++
          (mkFirebaseConfig (envOf [])).credential_path],
       Except.ok ⟨mkFirebaseConfig (envOf []),
         ⟨"binance", true, "BTC/USDT", PyNum.fin ⟨1, -1⟩, PyNum.fin ⟨2, -2⟩,
          PyNum.fin ⟨3, -2⟩, PyNum.fin ⟨3, -1⟩⟩,
         ⟨["news", "twitter", "reddit"], 300, PyNum.fin ⟨5, -2⟩⟩,
         ⟨"INFO", "asdts.log", 10, 5⟩⟩) :=
  (C6_missing_credential_warns (envOf []) fsFalse
      ⟨"binance", true, "BTC/USDT", PyNum.fin ⟨1, -1⟩, PyNum.fin ⟨2, -2⟩,
       PyNum.fin ⟨3, -2⟩, PyNum.fin ⟨3, -1⟩⟩
      ⟨["news", "twitter", "reddit"], 300, PyNum.fin ⟨5, -2⟩⟩
      ⟨"INFO", "asdts.log", 10, 5⟩
      (by decide) (by decide) (by decide)
      (by decide) (by decide)
      rfl).1

/-- C2 counterexample: with TRADING_EXCHANGE set to the empty string (and
every other variable unset), construction succeeds and the exchange field is
the empty string, not the documented default "binance" — `os.getenv` only
substitutes the default when the variable is absent, not when it is empty. -/
theorem C2_counterexample :
    exchangeOf ((mkASDTSConfig (envOf [("TRADING_EXCHANGE", "")]) fsTrue).2) = some "" ∧
    some "" ≠ some "binance" := by
  constructor
  · decide
  · decide

/-- C2 as amended: for every one of the fifteen variables, when that
variable is ABSENT (unset) and construction succeeds, the corresponding
field equals its documented compiled-in default (`⟨1, -1⟩` is the exact
parse of the default string "0.1", `⟨2, -2⟩` of "0.02", `⟨3, -2⟩` of "0.03",
`⟨3, -1⟩` of "0.3", `⟨5, -2⟩` of "0.05"); an empty-string value is not
replaced by the default. -/
theorem C2_absent_defaults (env : Env) (fs : String → Bool) (c : ASDTSConfig)
    (h : (mkASDTSConfig env fs).2 = Except.ok c) :
    (env "FIREBASE_CREDENTIAL_PATH" = none →
      c.firebase.credential_path = "firebase-credentials.json") ∧
    (env "FIREBASE_PROJECT_ID" = none → c.firebase.project_id = "asdts-system") ∧
    (env "TRADING_EXCHANGE" = none → c.trading.exchange = "binance") ∧
    (env "TRADING_TESTNET" = none → c.trading.testnet = true) ∧
    (env "DEFAULT_SYMBOL" = none → c.trading.default_symbol = "BTC/USDT") ∧
    (env "MAX_POSITION_SIZE" = none → c.trading.max_position_size = PyNum.fin ⟨1, -1⟩) ∧
    (env "STOP_LOSS_PCT" = none → c.trading.stop_loss_pct = PyNum.fin ⟨2, -2⟩) ∧
    (env "TAKE_PROFIT_PCT" = none → c.trading.take_profit_pct = PyNum.fin ⟨3, -2⟩) ∧
    (env "SENTIMENT_THRESHOLD" = none → c.trading.sentiment_threshold = PyNum.fin ⟨3, -1⟩) ∧
    (env "SENTIMENT_UPDATE_INTERVAL" = none → c.sentiment.update_interval = 300) ∧
    (env "VADER_THRESHOLD" = none → c.sentiment.vader_threshold = PyNum.fin ⟨5, -2⟩) ∧
    (env "LOG_LEVEL" = none → c.logging.level = "INFO") ∧
    (env "LOG_FILE" = none → c.logging.file_path = "asdts.log") ∧
    (env "LOG_MAX_SIZE_MB" = none → c.logging.max_size_mb = 10) ∧
    (env "LOG_BACKUP_COUNT" = none → c.logging.backup_count = 5) := by
  obtain ⟨ht, hs, hl, hf⟩ := mkASDTSConfig_ok h
  obtain ⟨m1, m2, m3, m4, e1, e2, e3⟩ := mkTradingConfig_ok ht
  obtain ⟨s1, s2, _⟩ := mkSentimentConfig_ok hs
  obtain ⟨l1, l2, l3, l4⟩ := mkLoggingConfig_ok hl
  refine ⟨?_, ?_, ?_, ?_, ?_, ?_, ?_, ?_, ?_, ?_, ?_, ?_, ?_, ?_, ?_⟩
  · intro hn; rw [hf]; simp [mkFirebaseConfig, getenv, hn]
  · intro hn; rw [hf]; simp [mkFirebaseConfig, getenv, hn]
  · intro hn; rw [e1]; simp [getenv, hn]
  · intro hn; rw [e2]; simp [getenv, hn]; decide
  · intro hn; rw [e3]; simp [getenv, hn]
  · intro hn
    simp only [getenv, hn, Option.getD_none] at m1
    exact (Except.ok.inj (((by decide : pyFloat "0.1" =
      Except.ok (PyNum.fin ⟨1, -1⟩))).symm.trans m1)).symm
  · intro hn
    simp only [getenv, hn, Option.getD_none] at m2
    exact (Except.ok.inj (((by decide : pyFloat "0.02" =
      Except.ok (PyNum.fin ⟨2, -2⟩))).symm.trans m2)).symm
  · intro hn
    simp only [getenv, hn, Option.getD_none] at m3
    exact (Except.ok.inj (((by decide : pyFloat "0.03" =
      Except.ok (PyNum.fin ⟨3, -2⟩))).symm.trans m3)).symm
  · intro hn
    simp only [getenv, hn, Option.getD_none] at m4
    exact (Except.ok.inj (((by decide : pyFloat "0.3" =
      Except.ok (PyNum.fin ⟨3, -1⟩))).symm.trans m4)).symm
  · intro hn
    simp only [getenv, hn, Option.getD_none] at s1
    exact (Except.ok.inj (((by decide : pyInt "300" =
      Except.ok (300 : Int))).symm.trans s1)).symm
  · intro hn
    simp only [getenv, hn, Option.getD_none] at s2
    exact (Except.ok.inj (((by decide : pyFloat "0.05" =
      Except.ok (PyNum.fin ⟨5, -2⟩))).symm.trans s2)).symm
  · intro hn; rw [l3]; simp [getenv, hn]
  · intro hn; rw [l4]; simp [getenv, hn]
  · intro hn
    simp only [getenv, hn, Option.getD_none] at l1
    exact (Except.ok.inj (((by decide : pyInt "10" =
      Except.ok (10 : Int))).symm.trans l1)).symm
  · intro hn
    simp only [getenv, hn, Option.getD_none] at l2
    exact (Except.ok.inj (((by decide : pyInt "5" =
      Except.ok (5 : Int))).symm.trans l2)).symm

/-- Witness for the amended C2 on the empty environment. -/
theorem C2_absent_defaults_witness :
    cfgDefault.trading.exchange = "binance" ∧
    cfgDefault.trading.max_position_size = PyNum.fin ⟨1, -1⟩ := by
  have h := C2_absent_defaults (envOf []) fsTrue cfgDefault
    (by decide)
  exact ⟨h.2.2.1 rfl, h.2.2.2.2.2.1 rfl⟩

/-- C4: when a variable is set, the corresponding field of a successfully
constructed settings object is exactly the parsed value: raw string for
string fields, the case-insensitive "true" test for the testnet flag, and
the numeric parse for numeric fields; lowercasing maps "TRUE" to a true flag
and "False" to a false flag. -/
theorem C4_parsed_values (env : Env) (fs : String → Bool) (c : ASDTSConfig)
    (h : (mkASDTSConfig env fs).2 = Except.ok c) :
    (∀ v, env "FIREBASE_CREDENTIAL_PATH" = some v → c.firebase.credential_path = v) ∧
    (∀ v, env "FIREBASE_PROJECT_ID" = some v → c.firebase.project_id = v) ∧
    (∀ v, env "TRADING_EXCHANGE" = some v → c.trading.exchange = v) ∧
    (∀ v, env "TRADING_TESTNET" = some v → c.trading.testnet = (pyLower v == "true")) ∧
    (∀ v, env "DEFAULT_SYMBOL" = some v → c.trading.default_symbol = v) ∧
    (∀ v q, env "MAX_POSITION_SIZE" = some v → pyFloat v = Except.ok q →
      c.trading.max_position_size = q) ∧
    (∀ v q, env "STOP_LOSS_PCT" = some v → pyFloat v = Except.ok q →
      c.trading.stop_loss_pct = q) ∧
    (∀ v q, env "TAKE_PROFIT_PCT" = some v → pyFloat v = Except.ok q →
      c.trading.take_profit_pct = q) ∧
    (∀ v q, env "SENTIMENT_THRESHOLD" = some v → pyFloat v = Except.ok q →
      c.trading.sentiment_threshold = q) ∧
    (∀ v i, env "SENTIMENT_UPDATE_INTERVAL" = some v → pyInt v = Except.ok i →
      c.sentiment.update_interval = i) ∧
    (∀ v q, env "VADER_THRESHOLD" = some v → pyFloat v = Except.ok q →
      c.sentiment.vader_threshold = q) ∧
    (∀ v, env "LOG_LEVEL" = some v → c.logging.level = v) ∧
    (∀ v, env "LOG_FILE" = some v → c.logging.file_path = v) ∧
    (∀ v i, env "LOG_MAX_SIZE_MB" = some v → pyInt v = Except.ok i →
      c.logging.max_size_mb = i) ∧
    (∀ v i, env "LOG_BACKUP_COUNT" = some v → pyInt v = Except.ok i →
      c.logging.backup_count = i) ∧
    (pyLower "TRUE" == "true") = true ∧ (pyLower "False" == "true") = false := by
  obtain ⟨ht, hs, hl, hf⟩ := mkASDTSConfig_ok h
  obtain ⟨m1, m2, m3, m4, e1, e2, e3⟩ := mkTradingConfig_ok ht
  obtain ⟨s1, s2, _⟩ := mkSentimentConfig_ok hs
  obtain ⟨l1, l2, l3, l4⟩ := mkLoggingConfig_ok hl
  refine ⟨?_, ?_, ?_, ?_, ?_, ?_, ?_, ?_, ?_, ?_, ?_, ?_, ?_, ?_, ?_, by decide, by decide⟩
  · intro v hv; rw [hf]; simp [mkFirebaseConfig, getenv, hv]
  · intro v hv; rw [hf]; simp [mkFirebaseConfig, getenv, hv]
  · intro v hv; rw [e1]; simp [getenv, hv]
  · intro v hv; rw [e2]; simp [getenv, hv]
  · intro v hv; rw [e3]; simp [getenv, hv]
  · intro v q hv hq
    simp only [getenv, hv, Option.getD_some] at m1
    exact (Except.ok.inj (hq.symm.trans m1)).symm
  · intro v q hv hq
    simp only [getenv, hv, Option.getD_some] at m2
    exact (Except.ok.inj (hq.symm.trans m2)).symm
  · intro v q hv hq
    simp only [getenv, hv, Option.getD_some] at m3
    exact (Except.ok.inj (hq.symm.trans m3)).symm
  · intro v q hv hq
    simp only [getenv, hv, Option.getD_some] at m4
    exact (Except.ok.inj (hq.symm.trans m4)).symm
  · intro v i hv hi
    simp only [getenv, hv, Option.getD_some] at s1
    exact (Except.ok.inj (hi.symm.trans s1)).symm
  · intro v q hv hq
    simp only [getenv, hv, Option.getD_some] at s2
    exact (Except.ok.inj (hq.symm.trans s2)).symm
  · intro v hv; rw [l3]; simp [getenv, hv]
  · intro v hv; rw [l4]; simp [getenv, hv]
  · intro v i hv hi
    simp only [getenv, hv, Option.getD_some] at l1
    exact (Except.ok.inj (hi.symm.trans l1)).symm
  · intro v i hv hi
    simp only [getenv, hv, Option.getD_some] at l2
    exact (Except.ok.inj (hi.symm.trans l2)).symm

/-- Witness for C4 on an environment binding all fifteen variables. -/
theorem C4_parsed_values_witness :
    cfg15.trading.exchange = "kraken" ∧
    cfg15.trading.testnet = (pyLower "TRUE" == "true") ∧
    cfg15.trading.max_position_size = PyNum.fin ⟨25, -2⟩ := by
  have h := C4_parsed_values envAll fsTrue cfg15 (by decide)
  exact ⟨h.2.2.1 "kraken" (by decide),
         h.2.2.2.1 "TRUE" (by decide),
         h.2.2.2.2.2.1 "0.25" (PyNum.fin ⟨25, -2⟩) (by decide) (by decide)⟩

/-- The storage group does not read TRADING_TESTNET. -/
lemma mkFirebaseConfig_setVar_testnet (env : Env) (v : String) :
    mkFirebaseConfig (setVar env "TRADING_TESTNET" v) = mkFirebaseConfig env := by
  unfold mkFirebaseConfig
  rw [getenv_setVar_ne env "TRADING_TESTNET" v "FIREBASE_CREDENTIAL_PATH"
        "firebase-credentials.json" (by decide),
      getenv_setVar_ne env "TRADING_TESTNET" v "FIREBASE_PROJECT_ID"
        "asdts-system" (by decide)]

/-- The sentiment group does not read TRADING_TESTNET. -/
lemma mkSentimentConfig_setVar_testnet (env : Env) (v : String) :
    mkSentimentConfig (setVar env "TRADING_TESTNET" v) = mkSentimentConfig env := by
  unfold mkSentimentConfig
  rw [getenv_setVar_ne env "TRADING_TESTNET" v "SENTIMENT_UPDATE_INTERVAL"
        "300" (by decide),
      getenv_setVar_ne env "TRADING_TESTNET" v "VADER_THRESHOLD" "0.05" (by decide)]

/-- The logging group does not read TRADING_TESTNET. -/
lemma mkLoggingConfig_setVar_testnet (env : Env) (v : String) :
    mkLoggingConfig (setVar env "TRADING_TESTNET" v) = mkLoggingConfig env := by
  unfold mkLoggingConfig
  simp only [getenv_setVar_ne env "TRADING_TESTNET" v "LOG_MAX_SIZE_MB" "10" (by decide),
    getenv_setVar_ne env "TRADING_TESTNET" v "LOG_BACKUP_COUNT" "5" (by decide),
    getenv_setVar_ne env "TRADING_TESTNET" v "LOG_LEVEL" "INFO" (by decide),
    getenv_setVar_ne env "TRADING_TESTNET" v "LOG_FILE" "asdts.log" (by decide)]

/-- Rebinding TRADING_TESTNET only changes the testnet flag of the trading
group; in particular it cannot turn success into failure. -/
lemma mkTradingConfig_setVar_testnet (env : Env) (v : String) :
    mkTradingConfig (setVar env "TRADING_TESTNET" v) =
      (mkTradingConfig env).map
        (fun t => { t with testnet := pyLower v == "true" }) := by
  have hv : getenv (setVar env "TRADING_TESTNET" v) "TRADING_TESTNET" "True" = v := by
    simp [getenv, setVar]
  unfold mkTradingConfig
  simp only [getenv_setVar_ne env "TRADING_TESTNET" v "MAX_POSITION_SIZE" "0.1" (by decide),
    getenv_setVar_ne env "TRADING_TESTNET" v "STOP_LOSS_PCT" "0.02" (by decide),
    getenv_setVar_ne env "TRADING_TESTNET" v "TAKE_PROFIT_PCT" "0.03" (by decide),
    getenv_setVar_ne env "TRADING_TESTNET" v "SENTIMENT_THRESHOLD" "0.3" (by decide),
    getenv_setVar_ne env "TRADING_TESTNET" v "TRADING_EXCHANGE" "binance" (by decide),
    getenv_setVar_ne env "TRADING_TESTNET" v "DEFAULT_SYMBOL" "BTC/USDT" (by decide),
    hv]
  cases pyFloat (getenv env "MAX_POSITION_SIZE" "0.1") <;>
    cases pyFloat (getenv env "STOP_LOSS_PCT" "0.02") <;>
    cases pyFloat (getenv env "TAKE_PROFIT_PCT" "0.03") <;>
    cases pyFloat (getenv env "SENTIMENT_THRESHOLD" "0.3") <;>
    simp [Except.map]

/-- Unpack the error component of the aggregate result once the groups all
build. -/
lemma errorOf_validate_map (c : ASDTSConfig) :
    errorOf ((validateCheck c).map (fun _ => c)) =
      (match validateCheck c with
       | Except.error e => some e
       | Except.ok _ => none) := by
  cases validateCheck c <;> simp [errorOf, Except.map]

/-- C8: parsing TRADING_TESTNET is total — construction never fails because
of this field (the error component of the outcome is independent of its
value) — a successful construction stores exactly the case-insensitive
"true" test, and strings such as "1", "yes", "not-a-boolean" yield a false
flag rather than a parse error. -/
theorem C8_testnet_total (env : Env) (fs : String → Bool) :
    (∀ v1 v2 : String,
      errorOf ((mkASDTSConfig (setVar env "TRADING_TESTNET" v1) fs).2) =
        errorOf ((mkASDTSConfig (setVar env "TRADING_TESTNET" v2) fs).2)) ∧
    (∀ c : ASDTSConfig, (mkASDTSConfig env fs).2 = Except.ok c →
      c.trading.testnet = (pyLower (getenv env "TRADING_TESTNET" "True") == "true")) ∧
    testnetOf ((mkASDTSConfig (envOf [("TRADING_TESTNET", "1")]) fsTrue).2) = some false ∧
    testnetOf ((mkASDTSConfig (envOf [("TRADING_TESTNET", "yes")]) fsTrue).2) = some false ∧
    testnetOf ((mkASDTSConfig (envOf [("TRADING_TESTNET", "not-a-boolean")]) fsTrue).2)
      = some false := by
  refine ⟨?_, ?_, ?_, ?_, ?_⟩
  · intro v1 v2
    unfold mkASDTSConfig
    simp only [mkTradingConfig_setVar_testnet, mkSentimentConfig_setVar_testnet,
      mkLoggingConfig_setVar_testnet, mkFirebaseConfig_setVar_testnet]
    cases ht : mkTradingConfig env with
    | error e => simp [Except.map, errorOf]
    | ok t =>
      cases hs : mkSentimentConfig env with
      | error e => simp [Except.map, errorOf]
      | ok s =>
        cases hl : mkLoggingConfig env with
        | error e => simp [Except.map, errorOf]
        | ok l =>
          have hvc : validateCheck
              ⟨mkFirebaseConfig env, { t with testnet := pyLower v2 == "true" }, s, l⟩ =
              validateCheck
              ⟨mkFirebaseConfig env, { t with testnet := pyLower v1 == "true" }, s, l⟩ := rfl
          simp only [Except.map, errorOf_validate_map, hvc]
          cases validateCheck
              ⟨mkFirebaseConfig env, { t with testnet := pyLower v1 == "true" }, s, l⟩ <;>
            simp [errorOf]
  · intro c hc
    exact (mkTradingConfig_ok (mkASDTSConfig_ok hc).1).2.2.2.2.2.1
  · decide
  · decide
  · decide

/-- Witness for C8 on the empty environment. -/
theorem C8_testnet_total_witness :
    cfgDefault.trading.testnet =
      (pyLower (getenv (envOf []) "TRADING_TESTNET" "True") == "true") :=
  (C8_testnet_total (envOf []) fsTrue).2.1 cfgDefault
    (by decide)

end ASDTS

